import Mathlib

/-!
# Verification of the share-image composition engine

Shallow embedding of `src/utils/cloudinary-share-helper.js` (the share helper
actually required by the share route in the repository) together with the
status-sort logic of the `GET /user/bucket-list/share/:type` route handler.
JavaScript numbers are embedded as `Nat`/`Int` where the modelled
arithmetic is exact on its domain (`Math.floor` of a non-negative quotient
is `Nat` division), and the one inexact computation — the completion-rate
division and multiplication in `buildFooterOverlay` — is modelled
bit-exactly as IEEE-754 binary64 arithmetic with `Math.round` rounding the
resulting double to the nearest integer, ties toward `+∞`.
-/

namespace ShareHelper

/-- The four target social formats, in the iteration order of
`Object.entries(SOCIAL_FORMATS)` in the source: instagram, facebook,
twitter, stories. -/
inductive FormatKey
  | instagram
  | facebook
  | twitter
  | stories
deriving DecidableEq, Repr, Fintype

/-- One entry of the `SOCIAL_FORMATS` configuration object. -/
structure SocialFormat where
  width : Nat
  height : Nat
  name : String
  maxImages : Nat
  headerHeight : Nat
  footerHeight : Nat
  showDestinations : Bool
deriving DecidableEq, Repr

/-- The `SOCIAL_FORMATS` table of `src/utils/cloudinary-share-helper.js`. -/
def SOCIAL_FORMATS : FormatKey → SocialFormat
  | .instagram =>
    { width := 1080, height := 1080, name := "Instagram Post", maxImages := 9,
      headerHeight := 70, footerHeight := 90, showDestinations := true }
  | .facebook =>
    { width := 1200, height := 630, name := "Facebook", maxImages := 6,
      headerHeight := 60, footerHeight := 70, showDestinations := false }
  | .twitter =>
    { width := 1200, height := 675, name := "Twitter", maxImages := 6,
      headerHeight := 60, footerHeight := 70, showDestinations := false }
  | .stories =>
    { width := 1080, height := 1920, name := "Instagram Stories", maxImages := 6,
      headerHeight := 80, footerHeight := 100, showDestinations := false }

/-- `Object.entries(SOCIAL_FORMATS)` iteration order. -/
def formatOrder : List FormatKey :=
  [.instagram, .facebook, .twitter, .stories]

/-- A layout rectangle `{x, y, width, height}` in canvas pixel space. -/
structure Rect where
  x : Nat
  y : Nat
  width : Nat
  height : Nat
deriving DecidableEq, Repr

/-- The `switch (imageCount)` statement of `calculateGridLayout` selecting
`rows` and `cols` (counts 5 and 6 share a branch, as do 7, 8, 9; the
`default` branch covers every other count, including 0 and counts above 9). -/
def gridShape (imageCount : Nat) (formatKey : FormatKey) : Nat × Nat :=
  match imageCount with
  | 1 => (1, 1)
  | 2 => if formatKey = .stories then (2, 1) else (1, 2)
  | 3 => if formatKey = .stories then (3, 1) else (1, 3)
  | 4 => (2, 2)
  | 5 => (2, 3)
  | 6 => (2, 3)
  | 7 => (3, 3)
  | 8 => (3, 3)
  | 9 => (3, 3)
  | _ => (3, 3)

/-- `calculateGridLayout(imageCount, formatKey)` of
`src/utils/cloudinary-share-helper.js`: row-major grid of
`min(imageCount, rows*cols)` cells of floor-divided size, with a 10px gap,
offset vertically by the format's `headerHeight`. -/
def calculateGridLayout (imageCount : Nat) (formatKey : FormatKey) : List Rect :=
  let format := SOCIAL_FORMATS formatKey
  let availableHeight := format.height - format.headerHeight - format.footerHeight
  let availableWidth := format.width
  let gap := 10
  let (rows, cols) := gridShape imageCount formatKey
  let imageWidth := (availableWidth - (cols - 1) * gap) / cols
  let imageHeight := (availableHeight - (rows - 1) * gap) / rows
  let numImages := min imageCount (rows * cols)
  (List.range numImages).map fun i =>
    let row := i / cols
    let col := i % cols
    { x := col * (imageWidth + gap),
      y := format.headerHeight + row * (imageHeight + gap),
      width := imageWidth,
      height := imageHeight }

/-- Two rectangles have disjoint interiors (they may share boundary). -/
def Rect.interiorDisjoint (a b : Rect) : Prop :=
  a.x + a.width ≤ b.x ∨ b.x + b.width ≤ a.x ∨
  a.y + a.height ≤ b.y ∨ b.y + b.height ≤ a.y

instance : DecidablePred (fun p : Rect × Rect => p.1.interiorDisjoint p.2) :=
  fun _ => by unfold Rect.interiorDisjoint; infer_instance

instance (a b : Rect) : Decidable (a.interiorDisjoint b) := by
  unfold Rect.interiorDisjoint; infer_instance

/-- A rectangle lies within the horizontal band the photo grid is allowed to
occupy: `[0, canvasWidth] × [headerHeight, canvasHeight − footerHeight]`. -/
def Rect.inBand (r : Rect) (format : SocialFormat) : Prop :=
  r.x + r.width ≤ format.width ∧
  format.headerHeight ≤ r.y ∧
  r.y + r.height ≤ format.height - format.footerHeight

instance (r : Rect) (f : SocialFormat) : Decidable (r.inBand f) := by
  unfold Rect.inBand; infer_instance

/-! ## Text encoding

`encodeURIComponent` as specified by ECMA-262: the string's code points are
UTF-8 encoded and every byte outside the unreserved set
`A–Z a–z 0–9 - _ . ! ~ * ' ( )` is written as `%` followed by two uppercase
hex digits. The decoding functions below are the verification-side inverse
used to state that the escaping is lossless. -/

/-- Unreserved bytes of `encodeURIComponent` (kept verbatim): letters,
digits, and `- _ . ! ~ * ' ( )`. -/
def isUnreservedByte (b : Nat) : Bool :=
  (65 ≤ b && b ≤ 90) || (97 ≤ b && b ≤ 122) || (48 ≤ b && b ≤ 57) ||
  b == 45 || b == 95 || b == 46 || b == 33 || b == 126 || b == 42 ||
  b == 39 || b == 40 || b == 41

/-- UTF-8 bytes of one code point. -/
def utf8Bytes (n : Nat) : List Nat :=
  if n < 128 then [n]
  else if n < 2048 then [192 + n / 64, 128 + n % 64]
  else if n < 65536 then [224 + n / 4096, 128 + n / 64 % 64, 128 + n % 64]
  else [240 + n / 262144, 128 + n / 4096 % 64, 128 + n / 64 % 64, 128 + n % 64]

/-- Uppercase hexadecimal digit for a value below 16. -/
def hexDigitChar (n : Nat) : Char :=
  if n < 10 then Char.ofNat (48 + n) else Char.ofNat (55 + n)

/-- Percent-escape one byte: unreserved bytes stay literal, every other byte
becomes `%XX`. -/
def percentEncodeByte (b : Nat) : List Char :=
  if isUnreservedByte b then [Char.ofNat b]
  else ['%', hexDigitChar (b / 16), hexDigitChar (b % 16)]

/-- JavaScript's `encodeURIComponent`. -/
def encodeURIComponent (s : String) : String :=
  ⟨(s.data.map fun c => (utf8Bytes c.toNat).map percentEncodeByte).flatten.flatten⟩

/-- Value of a hexadecimal digit character (either case), if any. -/
def hexVal (c : Char) : Option Nat :=
  if 48 ≤ c.toNat ∧ c.toNat ≤ 57 then some (c.toNat - 48)
  else if 65 ≤ c.toNat ∧ c.toNat ≤ 70 then some (c.toNat - 55)
  else if 97 ≤ c.toNat ∧ c.toNat ≤ 102 then some (c.toNat - 87)
  else none

/-- Undo the percent layer: `%XX` triples become the byte `XX`, every other
character contributes its code point. -/
def percentDecodeBytes : List Char → Option (List Nat)
  | [] => some []
  | c :: rest =>
    if c = '%' then
      match rest with
      | h :: l :: rest2 =>
        match hexVal h, hexVal l, percentDecodeBytes rest2 with
        | some hv, some lv, some bs => some ((hv * 16 + lv) :: bs)
        | _, _, _ => none
      | _ => none
    else
      (percentDecodeBytes rest).map fun bs => c.toNat :: bs

/-- Whether a byte is a UTF-8 continuation byte. -/
def isContinuationByte (b : Nat) : Bool := 128 ≤ b && b < 192

/-- Decode a UTF-8 byte sequence back to code points. -/
def utf8Decode : List Nat → Option (List Nat)
  | [] => some []
  | b :: rest =>
    if b < 128 then (utf8Decode rest).map fun ns => b :: ns
    else if b < 192 then none
    else if b < 224 then
      match rest[0]? with
      | some b1 =>
        if isContinuationByte b1 then
          (utf8Decode (rest.drop 1)).map fun ns => ((b - 192) * 64 + (b1 - 128)) :: ns
        else none
      | none => none
    else if b < 240 then
      match rest[0]?, rest[1]? with
      | some b1, some b2 =>
        if isContinuationByte b1 && isContinuationByte b2 then
          (utf8Decode (rest.drop 2)).map fun ns =>
            ((b - 224) * 4096 + (b1 - 128) * 64 + (b2 - 128)) :: ns
        else none
      | _, _ => none
    else if b < 248 then
      match rest[0]?, rest[1]?, rest[2]? with
      | some b1, some b2, some b3 =>
        if isContinuationByte b1 && isContinuationByte b2 && isContinuationByte b3 then
          (utf8Decode (rest.drop 3)).map fun ns =>
            ((b - 240) * 262144 + (b1 - 128) * 4096 + (b2 - 128) * 64 + (b3 - 128)) :: ns
        else none
      | _, _, _ => none
    else none
termination_by l => l.length
decreasing_by
  all_goals simp [List.length_drop]
  all_goals omega

/-- Full inverse of `encodeURIComponent`, down to the code points of the
original string. -/
def decodeToCodepoints (s : String) : Option (List Nat) :=
  (percentDecodeBytes s.data).bind utf8Decode

/-! ## Overlay descriptors and their builders -/

/-- One Cloudinary transformation entry pushed by the overlay builders.
Each constructor mirrors one of the four object shapes the source pushes:
photo tiles `{overlay, width, height, crop, gravity}`, positioning entries
`{flags: 'layer_apply', gravity, x, y}`, the logo
`{overlay, width, crop, opacity}`, and text layers
`{overlay: {font_family, font_size, font_weight?, text}, color}`. -/
inductive Overlay
  | imageLayer (overlay : String) (width height : Nat) (crop gravity : String)
  | layerApply (gravity : String) (x y : Int)
  | logoLayer (overlay : String) (width : Nat) (crop : String) (opacity : Nat)
  | textLayer (font_family : String) (font_size : Nat) (font_weight : Option String)
      (text : String) (color : String)
deriving DecidableEq, Repr

/-- The `LOGO_CONFIG` object. -/
structure LogoConfig where
  publicId : String
  width : Nat
  position : String
  margin : Nat
  opacity : Nat
deriving Repr

def LOGO_CONFIG : LogoConfig :=
  { publicId := "logo_xdetr5", width := 250, position := "top_right",
    margin := 20, opacity := 95 }

/-- The `STYLE_CONFIG` object. -/
structure StyleConfig where
  headerBg : String
  headerOpacity : Nat
  footerBg : String
  footerOpacity : Nat
  textColor : String
  primaryFont : String
  secondaryFont : String
deriving Repr

def STYLE_CONFIG : StyleConfig :=
  { headerBg := "rgb:000000", headerOpacity := 70, footerBg := "rgb:000000",
    footerOpacity := 70, textColor := "rgb:ffffff", primaryFont := "Montserrat",
    secondaryFont := "Arial" }

/-- `buildHeaderOverlay(formatKey)`: the logo layer followed by its
positioning entry. The `switch` on `LOGO_CONFIG.position` is embedded as a
match on the configured position string; the (unreachable for the shipped
`'top_right'` configuration) `'center'` branch divides the even canvas
dimensions, embedded as integer division. -/
def buildHeaderOverlay (formatKey : FormatKey) : List Overlay :=
  let format := SOCIAL_FORMATS formatKey
  let pos : String × Int × Int :=
    match LOGO_CONFIG.position with
    | "top_right" => ("north_east", (LOGO_CONFIG.margin : Int), (LOGO_CONFIG.margin : Int))
    | "top_left" => ("north_west", (LOGO_CONFIG.margin : Int), (LOGO_CONFIG.margin : Int))
    | "center" => ("center", 0, -((format.height : Int) / 2) + (format.headerHeight : Int) / 2)
    | _ => ("north_east", (LOGO_CONFIG.margin : Int), (LOGO_CONFIG.margin : Int))
  [ .logoLayer LOGO_CONFIG.publicId LOGO_CONFIG.width "scale" LOGO_CONFIG.opacity,
    .layerApply pos.1 pos.2.1 pos.2.2 ]

/-- The `stats` aggregate consumed by the share generator. The source reads
`stats.completed || 0` and `stats.total || 0`; both fields are modelled as
the already-defaulted counts. -/
structure Stats where
  completed : Nat
  total : Nat
deriving DecidableEq, Repr

/-! ### Bit-exact binary64 arithmetic for the completion rate

The percentage in `buildFooterOverlay` is
`Math.round((completedCount / totalCount) * 100)`, computed on IEEE-754
binary64 doubles: the division and the multiplication are each correctly
rounded (round-to-nearest, ties-to-even), and `Math.round` returns the
integral value nearest to the resulting double, ties toward `+∞`
(ES2023 §21.3.2.28). The helpers below implement that rounding exactly in
integer arithmetic; a double is carried as a mantissa/exponent pair
`(m, e)` denoting the exact rational `m · 2^(e−52)`. The integer counts
themselves are exact as doubles (they are far below `2^53`), and the
magnitudes reached by `(c/t)·100` are far inside the normal binary64 range,
so neither subnormal underflow nor overflow arises and the unbounded
exponent used here coincides with IEEE-754. -/

/-- Fuel-driven binary logarithm: `floorLog2Aux fuel n = ⌊log₂ n⌋` whenever
`1 ≤ n ≤ fuel`. -/
def floorLog2Aux : Nat → Nat → Nat
  | 0, _ => 0
  | fuel + 1, n => if 2 ≤ n then floorLog2Aux fuel (n / 2) + 1 else 0

/-- `⌊log₂ n⌋` for `n ≥ 1`. -/
def floorLog2 (n : Nat) : Nat := floorLog2Aux n n

/-- Whether `2^e ≤ a/b` (for `b > 0`). -/
def pow2Le (e : Int) (a b : Nat) : Bool :=
  if 0 ≤ e then b * 2 ^ e.toNat ≤ a else b ≤ a * 2 ^ (-e).toNat

/-- `⌊log₂ (a/b)⌋` for positive `a`, `b`: the true value lies within one of
`⌊log₂ a⌋ − ⌊log₂ b⌋`, so it is found by direct comparison. -/
def ratExp2 (a b : Nat) : Int :=
  let d : Int := (floorLog2 a : Int) - (floorLog2 b : Int)
  if pow2Le (d + 1) a b then d + 1
  else if pow2Le d a b then d
  else d - 1

/-- Round `num/den` to the nearest integer, ties to even. -/
def rne (num den : Nat) : Nat :=
  let q := num / den
  let r := num % den
  if 2 * r < den then q
  else if den < 2 * r then q + 1
  else if q % 2 = 0 then q else q + 1

/-- Round the non-negative rational `a/b` to the nearest binary64 value
(round-to-nearest, ties-to-even): the 53-bit significand is obtained by
scaling `a/b` into `[2^52, 2^53)` and rounding. -/
def roundFloat (a b : Nat) : Nat × Int :=
  if a = 0 then (0, 0)
  else
    let e := ratExp2 a b
    let m := if 0 ≤ 52 - e then rne (a * 2 ^ (52 - e).toNat) b
             else rne a (b * 2 ^ (e - 52).toNat)
    (m, e)

/-- The double product `x * 100` for `x = m · 2^(e−52)`: the exact product
re-rounded to binary64. -/
def times100Float (p : Nat × Int) : Nat × Int :=
  if 0 ≤ p.2 - 52 then roundFloat (p.1 * 100 * 2 ^ (p.2 - 52).toNat) 1
  else roundFloat (p.1 * 100) (2 ^ (52 - p.2).toNat)

/-- `Math.round` of the double `m · 2^(e−52)`: the nearest integral value,
ties toward `+∞` (i.e. `⌊v + 1/2⌋` on the double's exact value). -/
def mathRound (p : Nat × Int) : Nat :=
  if 0 ≤ p.2 - 52 then p.1 * 2 ^ (p.2 - 52).toNat
  else (2 * p.1 + 2 ^ (52 - p.2).toNat) / 2 ^ (53 - p.2).toNat

/-- The completion percentage of `buildFooterOverlay`:
`totalCount > 0 ? Math.round((completedCount / totalCount) * 100) : 0`,
with the division and multiplication computed in binary64. -/
def footerPercentage (stats : Stats) : Int :=
  if 0 < stats.total then
    (mathRound (times100Float (roundFloat stats.completed stats.total)) : Int)
  else 0

/-- The plain (pre-escaping) stats line of `buildFooterOverlay`. -/
def statsText (stats : Stats) : String :=
  "✅ " ++ toString stats.completed ++ "/" ++ toString stats.total ++
    " réalisées (" ++ toString (footerPercentage stats) ++ "%)"

/-- The plain (pre-escaping) destination-names line of `buildFooterOverlay`:
the first five names joined by `' • '`, with a `'...'` marker when more than
five were supplied. -/
def destinationsText (destinationNames : List String) : String :=
  let displayNames := destinationNames.take 5
  "🌍 " ++ String.intercalate " • " displayNames ++
    (if destinationNames.length > 5 then "..." else "")

/-- `buildFooterOverlay(formatKey, stats, destinationNames)`: the stats text
layer, then (when the format shows destinations and the list is non-empty)
the destination-names text layer, then the call-to-action layer, each with
its positioning entry. -/
def buildFooterOverlay (formatKey : FormatKey) (stats : Stats)
    (destinationNames : List String) : List Overlay :=
  let format := SOCIAL_FORMATS formatKey
  let statsLayers : List Overlay :=
    [ .textLayer STYLE_CONFIG.primaryFont 36 (some "black")
        (encodeURIComponent (statsText stats)) STYLE_CONFIG.textColor,
      .layerApply "south_west" 30 (if format.showDestinations then 55 else 25) ]
  let destLayers : List Overlay :=
    if format.showDestinations ∧ destinationNames ≠ [] then
      [ .textLayer STYLE_CONFIG.primaryFont 24 none
          (encodeURIComponent (destinationsText destinationNames)) STYLE_CONFIG.textColor,
        .layerApply "south_west" 30 30 ]
    else []
  let ctaText := "mabucketliste.fr"
  let ctaLayers : List Overlay :=
    [ .textLayer STYLE_CONFIG.primaryFont 32 (some "black") ctaText STYLE_CONFIG.textColor,
      .layerApply "south_east" 30 (if format.showDestinations then 30 else 25) ]
  statsLayers ++ destLayers ++ ctaLayers

/-- The image pass of `buildOverlayTransformations`: for each image paired
positionally with its rectangle, a photo tile plus its positioning entry
(images whose index has no rectangle are skipped, mirroring the
`if (!pos) return;` guard). -/
def imageTileLayers (images : List String) (positions : List Rect) : List Overlay :=
  images.enum.flatMap fun p =>
    match positions[p.1]? with
    | none => []
    | some pos =>
      [ .imageLayer p.2 pos.width pos.height "fill" "auto",
        .layerApply "north_west" (pos.x : Int) (pos.y : Int) ]

/-- `buildOverlayTransformations(images, positions, formatKey, stats,
destinationNames)`: the image pass, followed by the header overlays,
followed by the footer overlays. -/
def buildOverlayTransformations (images : List String) (positions : List Rect)
    (formatKey : FormatKey) (stats : Stats) (destinationNames : List String) :
    List Overlay :=
  imageTileLayers images positions ++ buildHeaderOverlay formatKey ++
    buildFooterOverlay formatKey stats destinationNames

/-! ## generateShareData -/

/-- One entry of the `bucketListItems` array handed to `generateShareData`.
`cloudinary_public_id` is the stored image reference (`none` models a JS
`null`/`undefined`/absent field, which fails the source's falsy guard), and
`destination_name` likewise. -/
structure BucketItem where
  title : String
  cloudinary_public_id : Option String
  destination_name : Option String
deriving DecidableEq, Repr

/-- Character class of the allow-list regex `/^[a-zA-Z0-9_\-\/\.]+$/`. -/
def isAllowedChar (c : Char) : Bool :=
  c.isAlpha || c.isDigit || c == '_' || c == '-' || c == '/' || c == '.'

/-- The regex test `validFormat.test(publicId)`: at least one character,
all from the allow-list. -/
def validFormatTest (s : String) : Bool :=
  s.length != 0 && s.data.all isAllowedChar

/-- `String.prototype.trim()`: drop leading and trailing whitespace
(modelled over the character list with Lean's `Char.isWhitespace`). -/
def jsTrim (s : String) : String :=
  ⟨((s.data.dropWhile Char.isWhitespace).reverse.dropWhile Char.isWhitespace).reverse⟩

/-- The per-item validation of `generateShareData`: the falsy guard
`!item.cloudinary_public_id`, then `String(...).trim()` (string conversion
is the identity on the modelled string-or-missing references), the
empty/literal checks, and the allow-list regex. Returns the trimmed public
id when the item is accepted. -/
def acceptedPublicId (item : BucketItem) : Option String :=
  match item.cloudinary_public_id with
  | none => none
  | some raw =>
    if raw = "" then none
    else
      let publicId := jsTrim raw
      if publicId.length = 0 ∨ publicId = "undefined" ∨ publicId = "null" ∨
          publicId = "NaN" then none
      else if ¬ validFormatTest publicId then none
      else some publicId

/-- The `imagesToUse` array built by the validation loop. -/
def imagesToUse (bucketListItems : List BucketItem) : List String :=
  bucketListItems.filterMap acceptedPublicId

/-- The `destinationsToUse` array: `item.destination_name` is pushed only
when the item passed image validation and the name is truthy. -/
def destinationsToUse (bucketListItems : List BucketItem) : List String :=
  bucketListItems.filterMap fun item =>
    match acceptedPublicId item, item.destination_name with
    | some _, some d => if d = "" then none else some d
    | _, _ => none

/-- Outcome of one `cloudinary.uploader.explicit` call, as observed by the
per-format `try`/`catch`: a usable `eager[0].secure_url`, a response with no
eager result, or a thrown error. -/
inductive RenderResult
  | ok (secureUrl : String)
  | noEager
  | err (message : String)
deriving DecidableEq, Repr

/-- The base transformation entry
`{width, height, crop: 'fill', background: 'white'}`. -/
structure BaseTransform where
  width : Nat
  height : Nat
  crop : String
  background : String
deriving DecidableEq, Repr

/-- The per-format success payload
`{imageUrl, width, height, format: formatConfig.name}`. -/
structure FormatData where
  imageUrl : String
  width : Nat
  height : Nat
  format : String
deriving DecidableEq, Repr

/-- The value `generateShareData` resolves with:
`{success: true, images: results, stats}` where `results` holds one entry
per format whose render succeeded, in `Object.entries` iteration order. -/
structure ShareOutput where
  success : Bool
  images : List (FormatKey × FormatData)
  stats : Stats
deriving DecidableEq, Repr

def backgroundPublicId : String := "purple-gradient_iaa2rn"

/-- The transformation array submitted for one format: the base entry
followed by the overlays. -/
def shareTransformation (formatConfig : SocialFormat) (overlays : List Overlay) :
    BaseTransform × List Overlay :=
  ({ width := formatConfig.width, height := formatConfig.height,
     crop := "fill", background := "white" }, overlays)

/-- The success payload recorded for a format whose render returned a URL. -/
def formatSuccessData (formatKey : FormatKey) (secureUrl : String) : FormatData :=
  { imageUrl := secureUrl, width := (SOCIAL_FORMATS formatKey).width,
    height := (SOCIAL_FORMATS formatKey).height,
    format := (SOCIAL_FORMATS formatKey).name }

/-- `generateShareData(bucketListItems, stats, userId)` of
`src/utils/cloudinary-share-helper.js`. The single external collaborator —
the render service reached through `cloudinary.uploader.explicit` — is the
explicit `render` argument, invoked once per format with the format key and
the transformation built for it. Rejections are caught per format
(`{formatKey, success: false, error}`) and formats whose render failed are
only logged while aggregating: the returned object carries the successful
entries and no error record. Throws (`Except.error`) when validation leaves
no image, or when every format failed. -/
def generateShareData (render : FormatKey → BaseTransform × List Overlay → RenderResult)
    (bucketListItems : List BucketItem) (stats : Stats) : Except String ShareOutput :=
  let images := imagesToUse bucketListItems
  let destinations := destinationsToUse bucketListItems
  if images = [] then
    .error "Aucune image valide dans la bucket list"
  else
    let perFormat := formatOrder.map fun formatKey =>
      let formatConfig := SOCIAL_FORMATS formatKey
      let limitedImages := images.take formatConfig.maxImages
      let positions := calculateGridLayout limitedImages.length formatKey
      let overlays := buildOverlayTransformations limitedImages positions formatKey
        stats destinations
      (formatKey, render formatKey (shareTransformation formatConfig overlays))
    let results := perFormat.filterMap fun p =>
      match p.2 with
      | .ok url => some (p.1, formatSuccessData p.1 url)
      | _ => none
    if results = [] then
      .error "Aucune image n\x27a pu être générée"
    else
      .ok { success := true, images := results, stats := stats }

end ShareHelper

namespace ShareRoute

/-! ## The share route's activity selection

Embedding of the status-sort step of the
`GET /user/bucket-list/share/:type` handler: the enriched bucket list is
split into completed and pending entries, concatenated completed-first,
truncated to 9, and projected to the fields the share helper consumes. -/

/-- The activity status enumeration
(`validStatuses = ['planned', 'in_progress', 'completed']`). -/
inductive Status
  | planned
  | in_progress
  | completed
deriving DecidableEq, Repr

/-- The nested `activity` record of an enriched bucket-list row. -/
structure ActivityInfo where
  title : String
  cloudinary_public_id : Option String
deriving DecidableEq, Repr

/-- One enriched bucket-list row: a `status` at the top level and the
nested `activity`. -/
structure RouteBucketItem where
  status : Status
  activity : ActivityInfo
deriving DecidableEq, Repr

/-- `bucketList.filter(item => item.status === 'completed')`. -/
def completedItems (bucketList : List RouteBucketItem) : List RouteBucketItem :=
  bucketList.filter fun item => item.status = .completed

/-- `bucketList.filter(item => item.status === 'planned' || item.status ===
'in_progress')`. -/
def pendingItems (bucketList : List RouteBucketItem) : List RouteBucketItem :=
  bucketList.filter fun item => item.status = .planned ∨ item.status = .in_progress

/-- The order used for image selection: `[...completed, ...pending]`. -/
def selectionOrder (bucketList : List RouteBucketItem) : List RouteBucketItem :=
  completedItems bucketList ++ pendingItems bucketList

/-- One entry of `selectedActivities`. -/
structure SelectedActivity where
  cloudinary_public_id : Option String
  title : String
  status : Status
deriving DecidableEq, Repr

/-- `selectedActivities`: the completed-first order, truncated to 9 and
projected. -/
def selectedActivities (bucketList : List RouteBucketItem) : List SelectedActivity :=
  ((selectionOrder bucketList).take 9).map fun item =>
    { cloudinary_public_id := item.activity.cloudinary_public_id,
      title := item.activity.title,
      status := item.status }

end ShareRoute

namespace ShareHelper

/-- The claim-side description of an unusable image reference: after string
conversion and trimming, the reference is empty, is one of the literal
strings `'undefined'`, `'null'`, `'NaN'`, or contains a character outside
`[a-zA-Z0-9_\-\/\.]`. A missing (`null`/`undefined`) reference
string-converts to the literal `"null"`/`"undefined"` and is therefore bad. -/
def badReference (item : BucketItem) : Bool :=
  match item.cloudinary_public_id with
  | none => true
  | some raw =>
    let t := jsTrim raw
    t == "" || t == "undefined" || t == "null" || t == "NaN" ||
      !(t.data.all isAllowedChar)

/-- Kind test: is this descriptor a photo tile? -/
def Overlay.isImageLayer : Overlay → Bool
  | .imageLayer .. => true
  | _ => false

/-- Kind test: is this descriptor the logo layer? -/
def Overlay.isLogoLayer : Overlay → Bool
  | .logoLayer .. => true
  | _ => false

/-- Kind test: is this descriptor a text layer? -/
def Overlay.isTextLayer : Overlay → Bool
  | .textLayer .. => true
  | _ => false

/-- The texts carried by the text layers of a descriptor sequence. -/
def overlayTexts (overlays : List Overlay) : List String :=
  overlays.filterMap fun o =>
    match o with
    | .textLayer _ _ _ t _ => some t
    | _ => none

end ShareHelper

/-! # Claims -/

/-- C1: the claim as frozen is false on the code: `calculateGridLayout`
itself does not truncate to `format.maxImages` — its cell count is capped
only by the selected grid shape (at most 3×3) — so `calculateGridLayout(15,
facebook)` returns 9 rectangles, not `min(15, 6) = 6`. -/
theorem claim1_count_counterexample :
    (ShareHelper.calculateGridLayout 15 .facebook).length = 9 ∧
    (ShareHelper.SOCIAL_FORMATS .facebook).maxImages = 6 ∧
    ¬ ((ShareHelper.calculateGridLayout 15 .facebook).length =
        min 15 (ShareHelper.SOCIAL_FORMATS .facebook).maxImages) := by
  decide

/-- C1 (amended): for every n in {0,…,9,15} and every defined format,
`calculateGridLayout(n, format)` returns exactly `min(n, 9)` rectangles
(`n = 0` yields the empty sequence); the `min(n, format.maxImages)` count of
the claim holds for the composed pipeline, in which `generateShareData`
truncates the image list to `maxImages` before invoking the planner. -/
theorem claim1_count_fidelity :
    ∀ n ∈ [0, 1, 2, 3, 4, 5, 6, 7, 8, 9, 15], ∀ fk : ShareHelper.FormatKey,
      (ShareHelper.calculateGridLayout n fk).length = min n 9 ∧
      (ShareHelper.calculateGridLayout
          (min n (ShareHelper.SOCIAL_FORMATS fk).maxImages) fk).length =
        min n (ShareHelper.SOCIAL_FORMATS fk).maxImages := by
  decide

/-- C1 witness: the amended count at the claim's highlighted inputs
`n = 15` on facebook (`maxImages = 6`). -/
theorem claim1_count_fidelity_witness :
    (ShareHelper.calculateGridLayout 15 .facebook).length = min 15 9 ∧
    (ShareHelper.calculateGridLayout
        (min 15 (ShareHelper.SOCIAL_FORMATS .facebook).maxImages) .facebook).length =
      min 15 (ShareHelper.SOCIAL_FORMATS .facebook).maxImages :=
  claim1_count_fidelity 15 (by decide) .facebook

/-- C2: for every supported (count, format) pair, the rectangles returned by
`calculateGridLayout` have positive width and height, pairwise disjoint
interiors, and lie within
`[0, canvasWidth] × [headerHeight, canvasHeight − footerHeight]`. -/
theorem claim2_rect_nonoverlap :
    ∀ (fk : ShareHelper.FormatKey) (n : ℕ), 1 ≤ n →
      n ≤ (ShareHelper.SOCIAL_FORMATS fk).maxImages →
      (ShareHelper.calculateGridLayout n fk).Pairwise
        ShareHelper.Rect.interiorDisjoint ∧
      ∀ r ∈ ShareHelper.calculateGridLayout n fk,
        0 < r.width ∧ 0 < r.height ∧ r.inBand (ShareHelper.SOCIAL_FORMATS fk) := by
  have key : ∀ (fk : ShareHelper.FormatKey), ∀ n ∈ List.range 10, 1 ≤ n →
      n ≤ (ShareHelper.SOCIAL_FORMATS fk).maxImages →
      (ShareHelper.calculateGridLayout n fk).Pairwise
        ShareHelper.Rect.interiorDisjoint ∧
      ∀ r ∈ ShareHelper.calculateGridLayout n fk,
        0 < r.width ∧ 0 < r.height ∧ r.inBand (ShareHelper.SOCIAL_FORMATS fk) := by
    decide
  intro fk n h1 h2
  have h9 : n < 10 := by
    have : (ShareHelper.SOCIAL_FORMATS fk).maxImages ≤ 9 := by cases fk <;> decide
    omega
  exact key fk n (List.mem_range.mpr h9) h1 h2

/-- C2 witness: the full 3×3 instagram layout. -/
theorem claim2_rect_nonoverlap_witness :
    (ShareHelper.calculateGridLayout 9 .instagram).Pairwise
      ShareHelper.Rect.interiorDisjoint ∧
    ∀ r ∈ ShareHelper.calculateGridLayout 9 .instagram,
      0 < r.width ∧ 0 < r.height ∧ r.inBand (ShareHelper.SOCIAL_FORMATS .instagram) :=
  claim2_rect_nonoverlap .instagram 9 (by decide) (by decide)

/-- C3: the claim's grid table is false on the code at count 6 on the tall
format — the code keeps 2×3 for stories (the claim says 3×2) — and at
counts 7–8, where the code uses 3×3 everywhere (the claim says 2×4 non-tall
and 4×2 tall). -/
theorem claim3_grid_table_counterexample :
    ShareHelper.gridShape 6 .stories = (2, 3) ∧
    ShareHelper.gridShape 6 .stories ≠ (3, 2) ∧
    ShareHelper.gridShape 7 .facebook = (3, 3) ∧
    ShareHelper.gridShape 7 .facebook ≠ (2, 4) ∧
    ShareHelper.gridShape 7 .stories = (3, 3) ∧
    ShareHelper.gridShape 7 .stories ≠ (4, 2) := by
  decide

/-- C3 (amended): the planner's (rows, cols) table, keyed by count and by
whether the format is the tall one (stories): 1→1×1, 2→1×2 / 2×1 (tall),
3→1×3 / 3×1 (tall), 4→2×2, 5→2×3, 6→2×3 (all formats, stories included),
7–9→3×3 (all formats), and every other count (0 or ≥ 10) falls to the
default 3×3. -/
theorem claim3_grid_table :
    ∀ fk : ShareHelper.FormatKey,
      ShareHelper.gridShape 1 fk = (1, 1) ∧
      ShareHelper.gridShape 2 fk = (if fk = .stories then (2, 1) else (1, 2)) ∧
      ShareHelper.gridShape 3 fk = (if fk = .stories then (3, 1) else (1, 3)) ∧
      ShareHelper.gridShape 4 fk = (2, 2) ∧
      ShareHelper.gridShape 5 fk = (2, 3) ∧
      ShareHelper.gridShape 6 fk = (2, 3) ∧
      ShareHelper.gridShape 7 fk = (3, 3) ∧
      ShareHelper.gridShape 8 fk = (3, 3) ∧
      ShareHelper.gridShape 9 fk = (3, 3) ∧
      ShareHelper.gridShape 0 fk = (3, 3) ∧
      ∀ n : ℕ, ShareHelper.gridShape (n + 10) fk = (3, 3) := by
  intro fk
  cases fk <;>
    exact ⟨by decide, by decide, by decide, by decide, by decide, by decide,
      by decide, by decide, by decide, by decide, fun n => rfl⟩

/-- C6: the claim as frozen is false on the code: the footer rate is
`Math.round` of the double-precision evaluation of `(completed/total)*100`,
and at `completed = 23, total = 40` the double product is strictly below
`57.5` (it is `57.49999999999999289…`), so the code yields 57, while the
claimed exact `round(100·23/40) = round(57.5)` is 58. -/
theorem claim6_completion_rate_counterexample :
    ShareHelper.footerPercentage ⟨23, 40⟩ = 57 ∧
    round (100 * (23 : ℚ) / 40) = 58 := by
  constructor
  · decide
  · rw [round_eq]; norm_num

/-- C6 (amended): the completion rate embedded in the footer stats text is
`Math.round` applied to the IEEE-754 binary64 evaluation of
`(completed/total) * 100` when `total > 0`, and `0` when `total = 0` (no
division-by-zero fault); this agrees with the claimed exact
`round(100·completed/total)` at the spec's example `completed = 3,
total = 14` — both give 21 — though not at every input. The stats text
layer carrying the rate is the first footer overlay. -/
theorem claim6_completion_rate :
    (∀ c : ℕ, ShareHelper.footerPercentage ⟨c, 0⟩ = 0) ∧
    (ShareHelper.footerPercentage ⟨3, 14⟩ = 21 ∧ round (100 * (3 : ℚ) / 14) = 21) ∧
    ∀ (c t : ℕ) (fk : ShareHelper.FormatKey) (dests : List String),
      (ShareHelper.buildFooterOverlay fk ⟨c, t⟩ dests).head? =
        some (.textLayer "Montserrat" 36 (some "black")
          (ShareHelper.encodeURIComponent (ShareHelper.statsText ⟨c, t⟩))
          "rgb:ffffff") :=
  ⟨fun _ => rfl, ⟨by decide, by rw [round_eq]; norm_num⟩, fun _ _ _ _ => rfl⟩

/-- C5: when no activity passes image validation, `generateShareData` fails
with the no-valid-images error, and the result does not depend on the render
service at all — no render job influences (or is needed for) the outcome. -/
theorem claim5_zero_valid_images :
    ∀ (render render' :
        ShareHelper.FormatKey → ShareHelper.BaseTransform × List ShareHelper.Overlay →
          ShareHelper.RenderResult)
      (items : List ShareHelper.BucketItem) (stats : ShareHelper.Stats),
      (∀ item ∈ items, ShareHelper.acceptedPublicId item = none) →
      ShareHelper.generateShareData render items stats =
        .error "Aucune image valide dans la bucket list" ∧
      ShareHelper.generateShareData render items stats =
        ShareHelper.generateShareData render' items stats := by
  intro render render' items stats h
  have himg : ShareHelper.imagesToUse items = [] := by
    simp only [ShareHelper.imagesToUse, List.filterMap_eq_nil_iff]
    exact h
  constructor <;> simp [ShareHelper.generateShareData, himg]

/-- C5 witness: an activity with a whitespace-only reference and one with a
missing reference yield the terminal failure under any render service. -/
theorem claim5_zero_valid_images_witness :
    ShareHelper.generateShareData (fun _ _ => .ok "u")
        [⟨"A", some "   ", none⟩, ⟨"B", none, some "Paris"⟩] ⟨1, 2⟩ =
      .error "Aucune image valide dans la bucket list" ∧
    ShareHelper.generateShareData (fun _ _ => .ok "u")
        [⟨"A", some "   ", none⟩, ⟨"B", none, some "Paris"⟩] ⟨1, 2⟩ =
      ShareHelper.generateShareData (fun _ _ => .err "down")
        [⟨"A", some "   ", none⟩, ⟨"B", none, some "Paris"⟩] ⟨1, 2⟩ :=
  claim5_zero_valid_images _ _ _ _ (by decide)

/-- C8: the activity order used for image selection is a stable partition
with completed first: on `[A:planned, B:completed, C:completed, D:planned]`
the selection is `[B, C, A, D]`; in general the completed and pending
subsequences keep their original relative order, and every completed entry
precedes every non-completed entry. -/
theorem claim8_status_sort :
    ShareRoute.selectedActivities
        [⟨.planned, ⟨"A", none⟩⟩, ⟨.completed, ⟨"B", none⟩⟩,
         ⟨.completed, ⟨"C", none⟩⟩, ⟨.planned, ⟨"D", none⟩⟩] =
      [⟨none, "B", .completed⟩, ⟨none, "C", .completed⟩,
       ⟨none, "A", .planned⟩, ⟨none, "D", .planned⟩] ∧
    ∀ (l : List ShareRoute.RouteBucketItem),
      (ShareRoute.selectionOrder l).filter
          (fun it => it.status = ShareRoute.Status.completed) =
        ShareRoute.completedItems l ∧
      (ShareRoute.selectionOrder l).filter
          (fun it => it.status = ShareRoute.Status.planned ∨
            it.status = ShareRoute.Status.in_progress) =
        ShareRoute.pendingItems l ∧
      (ShareRoute.selectionOrder l).Pairwise
        (fun a b => b.status = ShareRoute.Status.completed →
          a.status = ShareRoute.Status.completed) := by
  constructor
  · decide
  · intro l
    have hmemC : ∀ a ∈ ShareRoute.completedItems l,
        a.status = ShareRoute.Status.completed := by
      intro a ha
      simpa using (List.mem_filter.mp ha).2
    have hmemP : ∀ a ∈ ShareRoute.pendingItems l,
        a.status = ShareRoute.Status.planned ∨
          a.status = ShareRoute.Status.in_progress := by
      intro a ha
      simpa using (List.mem_filter.mp ha).2
    refine ⟨?_, ?_, ?_⟩
    · rw [ShareRoute.selectionOrder, List.filter_append]
      have h1 : (ShareRoute.completedItems l).filter
          (fun it => it.status = ShareRoute.Status.completed) =
          ShareRoute.completedItems l := by
        apply List.filter_eq_self.mpr
        intro a ha
        simpa using hmemC a ha
      have h2 : (ShareRoute.pendingItems l).filter
          (fun it => it.status = ShareRoute.Status.completed) = [] := by
        apply List.filter_eq_nil_iff.mpr
        intro a ha
        rcases hmemP a ha with h | h <;> simp [h]
      rw [h1, h2, List.append_nil]
    · rw [ShareRoute.selectionOrder, List.filter_append]
      have h1 : (ShareRoute.completedItems l).filter
          (fun it => it.status = ShareRoute.Status.planned ∨
            it.status = ShareRoute.Status.in_progress) = [] := by
        apply List.filter_eq_nil_iff.mpr
        intro a ha
        simp [hmemC a ha]
      have h2 : (ShareRoute.pendingItems l).filter
          (fun it => it.status = ShareRoute.Status.planned ∨
            it.status = ShareRoute.Status.in_progress) =
          ShareRoute.pendingItems l := by
        apply List.filter_eq_self.mpr
        intro a ha
        simpa using hmemP a ha
      rw [h1, h2, List.nil_append]
    · rw [ShareRoute.selectionOrder, List.pairwise_append]
      refine ⟨?_, ?_, ?_⟩
      · exact List.pairwise_of_forall_mem_list fun a ha b _ => fun _ => hmemC a ha
      · refine List.pairwise_of_forall_mem_list fun a _ b hb => fun hbc => ?_
        rcases hmemP b hb with h | h <;> rw [hbc] at h <;> exact absurd h (by simp)
      · intro a ha b _
        exact fun _ => hmemC a ha

/-- Entries rejected by a filter contribute nothing to a `filterMap` that
sends them to `none`. -/
theorem filterMap_filter_of_none {α β : Type} (f : α → Option β) (p : α → Bool)
    (l : List α) (h : ∀ a ∈ l, p a = false → f a = none) :
    (l.filter p).filterMap f = l.filterMap f := by
  induction l with
  | nil => rfl
  | cons a l ih =>
    have ih' := ih fun x hx => h x (List.mem_cons_of_mem a hx)
    by_cases hp : p a = true
    · rw [List.filter_cons_of_pos hp, List.filterMap_cons, List.filterMap_cons]
      cases f a <;> simp [ih']
    · have hfa : f a = none := h a (List.mem_cons_self a l) (by simpa using hp)
      rw [List.filter_cons_of_neg (by simpa using hp), List.filterMap_cons, hfa, ih']

/-- C10: the image-reference validation of `generateShareData` rejects every
activity whose reference — after string conversion and trimming — is empty,
one of the literals `'undefined'`/`'null'`/`'NaN'`, or contains a character
outside `[a-zA-Z0-9_\-\/\.]`; such entries contribute neither an image
overlay nor a destination name anywhere: erasing them leaves the whole
share-set result unchanged. -/
theorem claim10_reference_validation :
    (∀ item : ShareHelper.BucketItem, ShareHelper.badReference item = true →
      ShareHelper.acceptedPublicId item = none) ∧
    ∀ render (items : List ShareHelper.BucketItem) (stats : ShareHelper.Stats),
      ShareHelper.generateShareData render
          (items.filter fun it => !ShareHelper.badReference it) stats =
        ShareHelper.generateShareData render items stats := by
  have hmain : ∀ item : ShareHelper.BucketItem,
      ShareHelper.badReference item = true →
      ShareHelper.acceptedPublicId item = none := by
    intro item hbad
    unfold ShareHelper.badReference at hbad
    cases h : item.cloudinary_public_id with
    | none => simp [ShareHelper.acceptedPublicId, h]
    | some raw =>
      rw [h] at hbad
      simp only [Bool.or_eq_true, beq_iff_eq, Bool.not_eq_true'] at hbad
      simp only [ShareHelper.acceptedPublicId, h]
      by_cases hraw : raw = ""
      · simp [hraw]
      · rw [if_neg hraw]
        rcases hbad with (((h1 | h1) | h1) | h1) | h1
        · rw [if_pos]
          left
          simp [h1]
        · rw [if_pos]
          right; left; exact h1
        · rw [if_pos]
          right; right; left; exact h1
        · rw [if_pos]
          right; right; right; exact h1
        · by_cases hfirst : (ShareHelper.jsTrim raw).length = 0 ∨
            ShareHelper.jsTrim raw = "undefined" ∨ ShareHelper.jsTrim raw = "null" ∨
            ShareHelper.jsTrim raw = "NaN"
          · rw [if_pos hfirst]
          · rw [if_neg hfirst, if_pos]
            simp [ShareHelper.validFormatTest, h1]
  refine ⟨hmain, fun render items stats => ?_⟩
  have hacc : ∀ a ∈ items, (!ShareHelper.badReference a) = false →
      ShareHelper.acceptedPublicId a = none := by
    intro a _ hpa
    exact hmain a (by simpa using hpa)
  have himg : ShareHelper.imagesToUse
      (items.filter fun it => !ShareHelper.badReference it) =
      ShareHelper.imagesToUse items :=
    filterMap_filter_of_none _ _ _ hacc
  have hdest : ShareHelper.destinationsToUse
      (items.filter fun it => !ShareHelper.badReference it) =
      ShareHelper.destinationsToUse items := by
    apply filterMap_filter_of_none
    intro a ha hpa
    rw [hacc a ha hpa]
  rw [ShareHelper.generateShareData, ShareHelper.generateShareData, himg, hdest]

/-- C10 witness: a reference with a disallowed character is rejected, and
dropping the bad entries of a concrete list leaves the result unchanged. -/
theorem claim10_reference_validation_witness :
    ShareHelper.acceptedPublicId ⟨"T", some "inv@lid", some "Rome"⟩ = none ∧
    ShareHelper.generateShareData (fun _ _ => .ok "u")
        ([⟨"T", some "inv@lid", some "Rome"⟩, ⟨"U", some "pic1", none⟩].filter
          fun it => !ShareHelper.badReference it) ⟨1, 2⟩ =
      ShareHelper.generateShareData (fun _ _ => .ok "u")
        [⟨"T", some "inv@lid", some "Rome"⟩, ⟨"U", some "pic1", none⟩] ⟨1, 2⟩ :=
  ⟨claim10_reference_validation.1 _ (by decide),
   claim10_reference_validation.2 _ _ _⟩

/-- C4: the claim as frozen is false on the code: when the render service
fails for exactly one format, `generateShareData` returns the three
successful entries and does not raise, but its result records no errors map
— it is byte-identical whatever error the failed format produced, and
mentions the failed format nowhere. -/
theorem claim4_errors_map_counterexample :
    ShareHelper.generateShareData
        (fun fk _ => if fk = .stories then .err "boom" else .ok "u")
        [⟨"t", some "pic1", none⟩] ⟨1, 2⟩ =
      ShareHelper.generateShareData
        (fun fk _ => if fk = .stories then .err "autre" else .ok "u")
        [⟨"t", some "pic1", none⟩] ⟨1, 2⟩ ∧
    ShareHelper.generateShareData
        (fun fk _ => if fk = .stories then .err "boom" else .ok "u")
        [⟨"t", some "pic1", none⟩] ⟨1, 2⟩ =
      .ok { success := true,
            images := [(.instagram, ShareHelper.formatSuccessData .instagram "u"),
                       (.facebook, ShareHelper.formatSuccessData .facebook "u"),
                       (.twitter, ShareHelper.formatSuccessData .twitter "u")],
            stats := ⟨1, 2⟩ } :=
  ⟨rfl, rfl⟩

/-- C4 (amended): when the render service fails for exactly one of the four
target formats and succeeds for the other three, `generateShareData` does
not raise and returns a result whose per-format entries are exactly the
three successful formats (in `Object.entries` order); the failed format is
silently omitted — no errors map is attached (failures are only logged). -/
theorem claim4_partial_failure (g : ShareHelper.FormatKey → ShareHelper.RenderResult)
    (items : List ShareHelper.BucketItem) (stats : ShareHelper.Stats)
    (bad : ShareHelper.FormatKey) (u : ShareHelper.FormatKey → String) (msg : String)
    (himg : ShareHelper.imagesToUse items ≠ [])
    (hbad : g bad = .err msg)
    (hok : ∀ fk, fk ≠ bad → g fk = .ok (u fk)) :
    ShareHelper.generateShareData (fun fk _ => g fk) items stats =
      .ok { success := true,
            images := (ShareHelper.formatOrder.filter (fun fk => fk ≠ bad)).map
              (fun fk => (fk, ShareHelper.formatSuccessData fk (u fk))),
            stats := stats } := by
  have hg : ∀ fk, g fk = if fk = bad then .err msg else .ok (u fk) := by
    intro fk
    by_cases h : fk = bad
    · rw [if_pos h, h, hbad]
    · rw [if_neg h, hok fk h]
  cases bad <;>
    simp [ShareHelper.generateShareData, ShareHelper.formatOrder, himg, hg,
      List.filter]

/-- C4 witness: one valid image, stories failing, the other three formats
succeeding. -/
theorem claim4_partial_failure_witness :
    ShareHelper.generateShareData
        (fun fk _ => (fun fk' => if fk' = ShareHelper.FormatKey.stories
          then ShareHelper.RenderResult.err "boom"
          else ShareHelper.RenderResult.ok "u") fk)
        [⟨"t", some "pic1", none⟩] ⟨1, 2⟩ =
      .ok { success := true,
            images := (ShareHelper.formatOrder.filter
                (fun fk => fk ≠ ShareHelper.FormatKey.stories)).map
              (fun fk => (fk, ShareHelper.formatSuccessData fk "u")),
            stats := ⟨1, 2⟩ } :=
  claim4_partial_failure _ _ _ .stories (fun _ => "u") "boom"
    (by decide) rfl (by decide)

/-- An element delivered by `getElem?` is a member of the list. -/
theorem mem_of_getElem_some {α : Type} {l : List α} {i : ℕ} {a : α}
    (h : l[i]? = some a) : a ∈ l := by
  have hi : i < l.length := by
    by_contra hc
    push_neg at hc
    rw [List.getElem?_eq_none hc] at h
    cases h
  rw [List.getElem?_eq_getElem hi] at h
  cases h
  exact List.getElem_mem hi

/-- Positional separation in an append: an element whose kind occurs only in
the first block precedes an element whose kind occurs only in the second. -/
theorem getElem_append_kind_lt {α : Type} (X Y : List α) (p q : α → Bool)
    (hpY : ∀ a ∈ Y, p a = false) (hqX : ∀ a ∈ X, q a = false)
    (i j : ℕ) (oi oj : α)
    (hgi : (X ++ Y)[i]? = some oi) (hgj : (X ++ Y)[j]? = some oj)
    (hp : p oi = true) (hq : q oj = true) : i < j := by
  have hiX : i < X.length := by
    by_contra hcon
    push_neg at hcon
    rw [List.getElem?_append_right hcon] at hgi
    have hmem : oi ∈ Y := mem_of_getElem_some hgi
    rw [hpY oi hmem] at hp
    cases hp
  have hjX : X.length ≤ j := by
    by_contra hcon
    push_neg at hcon
    rw [List.getElem?_append, if_pos hcon] at hgj
    have hmem : oj ∈ X := mem_of_getElem_some hgj
    rw [hqX oj hmem] at hq
    cases hq
  omega

/-- The image pass emits no logo layer and no text layer. -/
theorem imageTileLayers_kinds (images : List String)
    (positions : List ShareHelper.Rect) :
    ∀ a ∈ ShareHelper.imageTileLayers images positions,
      a.isLogoLayer = false ∧ a.isTextLayer = false := by
  intro a ha
  simp only [ShareHelper.imageTileLayers, List.mem_flatMap] at ha
  obtain ⟨p, _, ha⟩ := ha
  rcases hpos : positions[p.1]? with _ | pos <;> rw [hpos] at ha
  · cases ha
  · simp only [List.mem_cons, List.not_mem_nil, or_false] at ha
    rcases ha with rfl | rfl <;> exact ⟨rfl, rfl⟩

/-- The header pass emits no image layer and no text layer. -/
theorem headerOverlay_kinds (fk : ShareHelper.FormatKey) :
    ∀ a ∈ ShareHelper.buildHeaderOverlay fk,
      a.isImageLayer = false ∧ a.isTextLayer = false := by
  intro a ha
  simp only [ShareHelper.buildHeaderOverlay, List.mem_cons, List.not_mem_nil,
    or_false] at ha
  rcases ha with rfl | rfl <;> exact ⟨rfl, rfl⟩

/-- The footer pass emits no image layer and no logo layer. -/
theorem footerOverlay_kinds (fk : ShareHelper.FormatKey)
    (stats : ShareHelper.Stats) (dests : List String) :
    ∀ a ∈ ShareHelper.buildFooterOverlay fk stats dests,
      a.isImageLayer = false ∧ a.isLogoLayer = false := by
  intro a ha
  by_cases hc : (ShareHelper.SOCIAL_FORMATS fk).showDestinations ∧ dests ≠ []
  · simp only [ShareHelper.buildFooterOverlay, if_pos hc, List.mem_append,
      List.mem_cons, List.not_mem_nil, or_false] at ha
    rcases ha with ((rfl | rfl) | (rfl | rfl)) | (rfl | rfl) <;> exact ⟨rfl, rfl⟩
  · simp only [ShareHelper.buildFooterOverlay, if_neg hc, List.mem_append,
      List.mem_cons, List.not_mem_nil, or_false, List.append_nil] at ha
    rcases ha with (rfl | rfl) | (rfl | rfl) <;> exact ⟨rfl, rfl⟩

/-- C9: in every descriptor sequence returned by
`buildOverlayTransformations`, every image descriptor precedes the logo
descriptor, and the logo descriptor precedes every footer text descriptor
(stats line, destination names, call-to-action). -/
theorem claim9_stacking_order (images : List String) (positions : List ShareHelper.Rect)
    (fk : ShareHelper.FormatKey) (stats : ShareHelper.Stats) (dests : List String)
    (i j : ℕ) (oi oj : ShareHelper.Overlay)
    (hgi : (ShareHelper.buildOverlayTransformations images positions fk stats dests)[i]? =
      some oi)
    (hgj : (ShareHelper.buildOverlayTransformations images positions fk stats dests)[j]? =
      some oj) :
    (oi.isImageLayer = true → oj.isLogoLayer = true → i < j) ∧
    (oi.isLogoLayer = true → oj.isTextLayer = true → i < j) := by
  constructor
  · intro hp hq
    have h1 : ShareHelper.buildOverlayTransformations images positions fk stats dests =
        ShareHelper.imageTileLayers images positions ++
          (ShareHelper.buildHeaderOverlay fk ++
            ShareHelper.buildFooterOverlay fk stats dests) := by
      simp [ShareHelper.buildOverlayTransformations, List.append_assoc]
    rw [h1] at hgi hgj
    refine getElem_append_kind_lt _ _ ShareHelper.Overlay.isImageLayer
      ShareHelper.Overlay.isLogoLayer ?_ ?_ i j oi oj hgi hgj hp hq
    · intro a ha
      rcases List.mem_append.mp ha with h | h
      · exact (headerOverlay_kinds fk a h).1
      · exact (footerOverlay_kinds fk stats dests a h).1
    · intro a ha
      exact (imageTileLayers_kinds images positions a ha).1
  · intro hp hq
    have h2 : ShareHelper.buildOverlayTransformations images positions fk stats dests =
        (ShareHelper.imageTileLayers images positions ++
          ShareHelper.buildHeaderOverlay fk) ++
          ShareHelper.buildFooterOverlay fk stats dests := by
      simp [ShareHelper.buildOverlayTransformations, List.append_assoc]
    rw [h2] at hgi hgj
    refine getElem_append_kind_lt _ _ ShareHelper.Overlay.isLogoLayer
      ShareHelper.Overlay.isTextLayer ?_ ?_ i j oi oj hgi hgj hp hq
    · intro a ha
      exact (footerOverlay_kinds fk stats dests a ha).2
    · intro a ha
      rcases List.mem_append.mp ha with h | h
      · exact (imageTileLayers_kinds images positions a h).2
      · exact (headerOverlay_kinds fk a h).2

/-- C9 witness: on a one-image instagram composition, the image descriptor
(index 0) precedes the logo descriptor (index 2), which precedes the stats
text descriptor (index 4). -/
theorem claim9_stacking_order_witness : (0 : ℕ) < 2 ∧ (2 : ℕ) < 4 :=
  ⟨(claim9_stacking_order ["a"] [⟨0, 0, 5, 5⟩] .instagram ⟨1, 2⟩ [] 0 2 _ _
      rfl rfl).1 rfl rfl,
   (claim9_stacking_order ["a"] [⟨0, 0, 5, 5⟩] .instagram ⟨1, 2⟩ [] 2 4 _ _
      rfl rfl).2 rfl rfl⟩

set_option maxRecDepth 4096

/-- Hex digits round-trip through `hexVal`. -/
theorem hexVal_hexDigitChar : ∀ n < 16,
    ShareHelper.hexVal (ShareHelper.hexDigitChar n) = some n := by
  decide

/-- A character built from a byte keeps its code point. -/
theorem toNat_ofNat_byte : ∀ b < 256, (Char.ofNat b).toNat = b := by
  decide

/-- Unreserved bytes never render as the escape character. -/
theorem unreserved_ne_percent : ∀ b < 256,
    ShareHelper.isUnreservedByte b = true → Char.ofNat b ≠ '%' := by
  decide

/-- One percent-escaped byte decodes back to itself in front of any tail. -/
theorem percentDecode_encodeByte (b : Nat) (hb : b < 256) (cs : List Char) :
    ShareHelper.percentDecodeBytes (ShareHelper.percentEncodeByte b ++ cs) =
      (ShareHelper.percentDecodeBytes cs).map fun ns => b :: ns := by
  unfold ShareHelper.percentEncodeByte
  by_cases hu : ShareHelper.isUnreservedByte b
  · rw [if_pos hu]
    have hne := unreserved_ne_percent b hb hu
    show ShareHelper.percentDecodeBytes (Char.ofNat b :: cs) = _
    rcases cs with _ | ⟨x, _ | ⟨y, rest⟩⟩ <;>
      simp only [ShareHelper.percentDecodeBytes] <;>
      rw [if_neg hne] <;>
      simp only [toNat_ofNat_byte b hb]
  · rw [if_neg hu]
    show ShareHelper.percentDecodeBytes
      ('%' :: ShareHelper.hexDigitChar (b / 16) :: ShareHelper.hexDigitChar (b % 16) :: cs) = _
    simp only [ShareHelper.percentDecodeBytes]
    rw [if_pos trivial, hexVal_hexDigitChar (b / 16) (by omega),
      hexVal_hexDigitChar (b % 16) (by omega)]
    rcases hcs : ShareHelper.percentDecodeBytes cs with _ | ns <;> simp [hcs]
    omega

/-- A percent-escaped byte sequence decodes back to itself in front of any
tail. -/
theorem percentDecode_encodeBytes (bs : List Nat) (hb : ∀ b ∈ bs, b < 256)
    (cs : List Char) :
    ShareHelper.percentDecodeBytes (bs.flatMap ShareHelper.percentEncodeByte ++ cs) =
      (ShareHelper.percentDecodeBytes cs).map fun ns => bs ++ ns := by
  induction bs with
  | nil =>
    rcases hcs : ShareHelper.percentDecodeBytes cs with _ | ns <;> simp [hcs]
  | cons b bs ih =>
    rw [List.flatMap_cons, List.append_assoc,
      percentDecode_encodeByte b (hb b (by simp)) _,
      ih fun x hx => hb x (by simp [hx])]
    rcases hcs : ShareHelper.percentDecodeBytes cs with _ | ns <;> simp [hcs]

/-- One UTF-8-encoded code point decodes back to itself in front of any
tail. -/
theorem utf8Decode_encode_char (n : Nat) (hn : n < 1114112) (bs : List Nat) :
    ShareHelper.utf8Decode (ShareHelper.utf8Bytes n ++ bs) =
      (ShareHelper.utf8Decode bs).map fun ns => n :: ns := by
  unfold ShareHelper.utf8Bytes
  by_cases h1 : n < 128
  · rw [if_pos h1]
    show ShareHelper.utf8Decode (n :: bs) = _
    simp only [ShareHelper.utf8Decode]
    rw [if_pos h1]
  · rw [if_neg h1]
    by_cases h2 : n < 2048
    · rw [if_pos h2]
      show ShareHelper.utf8Decode ((192 + n / 64) :: (128 + n % 64) :: bs) = _
      simp only [ShareHelper.utf8Decode, List.getElem?_cons_zero,
        List.drop_succ_cons, List.drop_zero]
      rw [if_neg (show ¬(192 + n / 64 < 128) by omega),
        if_neg (show ¬(192 + n / 64 < 192) by omega),
        if_pos (show 192 + n / 64 < 224 by omega),
        if_pos (show ShareHelper.isContinuationByte (128 + n % 64) = true by
          simp [ShareHelper.isContinuationByte]; omega),
        show (192 + n / 64 - 192) * 64 + (128 + n % 64 - 128) = n by omega]
    · rw [if_neg h2]
      by_cases h3 : n < 65536
      · rw [if_pos h3]
        show ShareHelper.utf8Decode
          ((224 + n / 4096) :: (128 + n / 64 % 64) :: (128 + n % 64) :: bs) = _
        simp only [ShareHelper.utf8Decode, List.getElem?_cons_zero,
          List.getElem?_cons_succ, List.drop_succ_cons, List.drop_zero]
        rw [if_neg (show ¬(224 + n / 4096 < 128) by omega),
          if_neg (show ¬(224 + n / 4096 < 192) by omega),
          if_neg (show ¬(224 + n / 4096 < 224) by omega),
          if_pos (show 224 + n / 4096 < 240 by omega),
          if_pos (show (ShareHelper.isContinuationByte (128 + n / 64 % 64) &&
              ShareHelper.isContinuationByte (128 + n % 64)) = true by
            simp [ShareHelper.isContinuationByte]; omega),
          show (224 + n / 4096 - 224) * 4096 + (128 + n / 64 % 64 - 128) * 64 +
            (128 + n % 64 - 128) = n by omega]
      · rw [if_neg h3]
        show ShareHelper.utf8Decode ((240 + n / 262144) :: (128 + n / 4096 % 64) ::
          (128 + n / 64 % 64) :: (128 + n % 64) :: bs) = _
        simp only [ShareHelper.utf8Decode, List.getElem?_cons_zero,
          List.getElem?_cons_succ, List.drop_succ_cons, List.drop_zero]
        rw [if_neg (show ¬(240 + n / 262144 < 128) by omega),
          if_neg (show ¬(240 + n / 262144 < 192) by omega),
          if_neg (show ¬(240 + n / 262144 < 224) by omega),
          if_neg (show ¬(240 + n / 262144 < 240) by omega),
          if_pos (show 240 + n / 262144 < 248 by omega),
          if_pos (show (ShareHelper.isContinuationByte (128 + n / 4096 % 64) &&
              ShareHelper.isContinuationByte (128 + n / 64 % 64) &&
              ShareHelper.isContinuationByte (128 + n % 64)) = true by
            simp [ShareHelper.isContinuationByte]; omega),
          show (240 + n / 262144 - 240) * 262144 + (128 + n / 4096 % 64 - 128) * 4096 +
            (128 + n / 64 % 64 - 128) * 64 + (128 + n % 64 - 128) = n by omega]

/-- A UTF-8-encoded sequence of code points decodes back to itself. -/
theorem utf8Decode_encode (ns : List Nat) (h : ∀ n ∈ ns, n < 1114112) :
    ShareHelper.utf8Decode (ns.flatMap ShareHelper.utf8Bytes) = some ns := by
  induction ns with
  | nil => simp [ShareHelper.utf8Decode]
  | cons n ns ih =>
    rw [List.flatMap_cons, utf8Decode_encode_char n (h n (by simp)),
      ih fun x hx => h x (by simp [hx])]
    rfl

/-- UTF-8 bytes stay below 256 for any code point below `0x110000`. -/
theorem utf8Bytes_lt (n : Nat) (hn : n < 1114112) :
    ∀ b ∈ ShareHelper.utf8Bytes n, b < 256 := by
  intro b hb
  unfold ShareHelper.utf8Bytes at hb
  split_ifs at hb with h1 h2 h3 <;> simp only [List.mem_cons, List.not_mem_nil,
    or_false] at hb
  · omega
  · rcases hb with rfl | rfl <;> omega
  · rcases hb with rfl | rfl | rfl <;> omega
  · rcases hb with rfl | rfl | rfl | rfl <;> omega

/-- Every Lean character's code point is below `0x110000`. -/
theorem char_toNat_lt (c : Char) : c.toNat < 1114112 := by
  rcases c.valid with h | ⟨h1, h2⟩ <;> simp [Char.toNat] <;> omega

/-- The escaping of `encodeURIComponent` is lossless: decoding recovers the
original code points, so literal emoji/unicode content is preserved. -/
theorem decode_encodeURIComponent (s : String) :
    ShareHelper.decodeToCodepoints (ShareHelper.encodeURIComponent s) =
      some (s.data.map Char.toNat) := by
  have hE : ∀ (cs : List Char),
      ((cs.map fun c => (ShareHelper.utf8Bytes c.toNat).map
        ShareHelper.percentEncodeByte).flatten).flatten =
      ((cs.map Char.toNat).flatMap ShareHelper.utf8Bytes).flatMap
        ShareHelper.percentEncodeByte := by
    intro cs
    induction cs with
    | nil => rfl
    | cons c cs ih =>
      simp only [List.map_cons, List.flatten_cons, List.flatten_append,
        List.flatMap_cons, List.flatMap_append, List.flatMap_def, List.map_append, ih]
  have hb : ∀ b ∈ ((s.data.map Char.toNat).flatMap ShareHelper.utf8Bytes), b < 256 := by
    intro b hbmem
    rw [List.mem_flatMap] at hbmem
    obtain ⟨n, hn, hbn⟩ := hbmem
    rw [List.mem_map] at hn
    obtain ⟨c, _, rfl⟩ := hn
    exact utf8Bytes_lt c.toNat (char_toNat_lt c) b hbn
  show (ShareHelper.percentDecodeBytes (ShareHelper.encodeURIComponent s).data).bind
      ShareHelper.utf8Decode = _
  have hdata : (ShareHelper.encodeURIComponent s).data =
      ((s.data.map Char.toNat).flatMap ShareHelper.utf8Bytes).flatMap
        ShareHelper.percentEncodeByte := hE s.data
  rw [hdata]
  have hdec := percentDecode_encodeBytes
    ((s.data.map Char.toNat).flatMap ShareHelper.utf8Bytes) hb []
  rw [List.append_nil] at hdec
  rw [hdec]
  show ShareHelper.utf8Decode
      (((s.data.map Char.toNat).flatMap ShareHelper.utf8Bytes) ++ []) = _
  rw [List.append_nil]
  exact utf8Decode_encode _ fun n hn => by
    rw [List.mem_map] at hn
    obtain ⟨c, _, rfl⟩ := hn
    exact char_toNat_lt c

/-- A descriptor block without text layers contributes no texts. -/
theorem overlayTexts_eq_nil {l : List ShareHelper.Overlay}
    (h : ∀ a ∈ l, a.isTextLayer = false) : ShareHelper.overlayTexts l = [] := by
  simp only [ShareHelper.overlayTexts, List.filterMap_eq_nil_iff]
  intro a ha
  have hfa := h a ha
  cases a <;> first
    | rfl
    | (exfalso; simp [ShareHelper.Overlay.isTextLayer] at hfa)

/-- The texts of the footer pass: the escaped stats line, the escaped
destination line when shown, and the call-to-action. -/
theorem overlayTexts_footer (fk : ShareHelper.FormatKey) (stats : ShareHelper.Stats)
    (dests : List String) :
    ShareHelper.overlayTexts (ShareHelper.buildFooterOverlay fk stats dests) =
      [ShareHelper.encodeURIComponent (ShareHelper.statsText stats)] ++
      (if (ShareHelper.SOCIAL_FORMATS fk).showDestinations ∧ dests ≠ [] then
        [ShareHelper.encodeURIComponent (ShareHelper.destinationsText dests)]
      else []) ++
      ["mabucketliste.fr"] := by
  by_cases hc : (ShareHelper.SOCIAL_FORMATS fk).showDestinations ∧ dests ≠ [] <;>
    simp [ShareHelper.buildFooterOverlay, ShareHelper.overlayTexts, hc]

/-- C7: every human-readable text field emitted by the overlay composer —
the stats line, the destination-names line, and the call-to-action — is a
percent-escaped string (the image of `encodeURIComponent`; the
call-to-action `'mabucketliste.fr'` is its own escaping), and the escaping
is lossless, so literal emoji/unicode content is preserved through it. -/
theorem claim7_text_escaping :
    (∀ (images : List String) (positions : List ShareHelper.Rect)
        (fk : ShareHelper.FormatKey) (stats : ShareHelper.Stats) (dests : List String),
      ∀ t ∈ ShareHelper.overlayTexts
          (ShareHelper.buildOverlayTransformations images positions fk stats dests),
        ∃ plain, t = ShareHelper.encodeURIComponent plain) ∧
    ∀ s : String, ShareHelper.decodeToCodepoints (ShareHelper.encodeURIComponent s) =
      some (s.data.map Char.toNat) := by
  constructor
  · intro images positions fk stats dests t ht
    rw [ShareHelper.buildOverlayTransformations] at ht
    simp only [ShareHelper.overlayTexts, List.filterMap_append] at ht
    rw [show (ShareHelper.imageTileLayers images positions).filterMap _ =
        ShareHelper.overlayTexts (ShareHelper.imageTileLayers images positions)
        from rfl,
      show (ShareHelper.buildHeaderOverlay fk).filterMap _ =
        ShareHelper.overlayTexts (ShareHelper.buildHeaderOverlay fk) from rfl,
      show (ShareHelper.buildFooterOverlay fk stats dests).filterMap _ =
        ShareHelper.overlayTexts (ShareHelper.buildFooterOverlay fk stats dests)
        from rfl,
      overlayTexts_eq_nil fun a ha => (imageTileLayers_kinds images positions a ha).2,
      overlayTexts_eq_nil fun a ha => (headerOverlay_kinds fk a ha).2,
      overlayTexts_footer fk stats dests] at ht
    simp only [List.nil_append, List.append_assoc, List.mem_append,
      List.mem_singleton] at ht
    rcases ht with rfl | ht
    · exact ⟨ShareHelper.statsText stats, rfl⟩
    rcases ht with ht | rfl
    · by_cases hc : (ShareHelper.SOCIAL_FORMATS fk).showDestinations ∧ dests ≠ []
      · rw [if_pos hc] at ht
        rw [List.mem_singleton] at ht
        exact ⟨ShareHelper.destinationsText dests, ht⟩
      · rw [if_neg hc] at ht
        cases ht
    · exact ⟨"mabucketliste.fr", by decide⟩
  · exact decode_encodeURIComponent

/-- C7 witness: the call-to-action text emitted for a facebook composition
is in the image of the escaping, and the escaping of an emoji string
decodes back to its code points. -/
theorem claim7_text_escaping_witness :
    (∃ plain, "mabucketliste.fr" = ShareHelper.encodeURIComponent plain) ∧
    ShareHelper.decodeToCodepoints (ShareHelper.encodeURIComponent "🌍 Paris") =
      some ("🌍 Paris".data.map Char.toNat) :=
  ⟨claim7_text_escaping.1 [] [] .facebook ⟨0, 0⟩ [] "mabucketliste.fr" (by decide),
   claim7_text_escaping.2 "🌍 Paris"⟩
